import Mathlib

/-!
Verification of the Autopilot Control Loop of the ads-automation repository.

Python strings are embedded as `List Char`; floating-point spend/CPP values
are embedded as rationals, with the `float('inf')` / `None` "undefined
metric" sentinel embedded as `none` in `Option ℚ`.  Stateful workers are
embedded as explicit state-passing functions over environment records that
enumerate the outcomes of the external API calls.
-/

namespace AdsAutomation

/-- Python `str.lower()` restricted to per-character lowering. -/
def pyLower (s : List Char) : List Char := s.map Char.toLower

/-- Python `str.strip()`: drop whitespace from both ends. -/
def pyStrip (s : List Char) : List Char :=
  ((s.dropWhile Char.isWhitespace).reverse.dropWhile Char.isWhitespace).reverse

/-- Python `str.strip(chars)`: drop the given characters from both ends. -/
def stripChars (cs : List Char) (s : List Char) : List Char :=
  ((s.dropWhile (fun c => cs.contains c)).reverse.dropWhile (fun c => cs.contains c)).reverse

/-- Python substring containment `needle in hay` on strings. -/
def substrIn (needle : List Char) : List Char → Bool
  | [] => needle.isEmpty
  | c :: rest => needle.isPrefixOf (c :: rest) || substrIn needle rest

/-- Python `str.split('-')`: split at every dash, keeping empty segments. -/
def pySplitDash : List Char → List (List Char)
  | [] => [[]]
  | c :: rest =>
    match pySplitDash rest with
    | [] => [[c]]
    | h :: t => if c = '-' then [] :: h :: t else (c :: h) :: t

/-- The schedule mode field `on_off` after upper-casing: `ON` or `OFF`. -/
inductive Mode where
  | ON : Mode
  | OFF : Mode
deriving DecidableEq

/-- A cost-per-purchase metric: `some q` for a finite float value,
`none` for the `float('inf')` / `None` undefined sentinel. -/
abbrev Metric := Option ℚ

/-- Embedding of Python `cpp < threshold` where `cpp` may be `float('inf')`
(`inf < t` is `False`). -/
def mLtB : Metric → ℚ → Bool
  | none, _ => false
  | some q, t => decide (q < t)

/-- Embedding of Python `cpp >= threshold` where `cpp` may be `float('inf')`
(`inf >= t` is `True`). -/
def mGeB : Metric → ℚ → Bool
  | none, _ => true
  | some q, t => decide (t ≤ q)

namespace UpdateStatusWorker

/-- Campaign-level decision of `process_scheduled_campaigns`
(src/workers/update_status.py lines 160-168): in `ON` mode activate when
`campaign_cpp < cpp_metric`, in `OFF` mode pause when
`campaign_cpp >= cpp_metric`, and otherwise make no decision (the campaign
"remains" in its current status). -/
def campaignDecision : Mode → Metric → ℚ → Option String
  | Mode.ON, cpp, t => if mLtB cpp t then some "ACTIVE" else none
  | Mode.OFF, cpp, t => if mGeB cpp t then some "PAUSED" else none

/-- Ad-set-level decision of `process_adsets`
(src/workers/update_status.py lines 240-284): undefined CPP (`inf`/`None`)
pauses unless already paused; `CPP == 0` skips; otherwise `OFF` mode pauses
iff `CPP >= threshold` and `ON` mode activates iff `CPP < threshold`,
pausing otherwise. -/
def adsetDecision (mode : Mode) (cpp : Metric) (t : ℚ) (current : String) : Option String :=
  match cpp with
  | none => if current = "PAUSED" then none else some "PAUSED"
  | some q =>
    if q = 0 then none
    else
      match mode with
      | Mode.OFF => if t ≤ q then some "PAUSED" else none
      | Mode.ON => if q < t then some "ACTIVE" else some "PAUSED"

/-- One ad set entry of the `campaigns_data` structure handed to
`process_adsets`: identifier, `NAME`, `STATUS` and `CPP` fields. -/
structure AdsetInfo where
  id : String
  name : String
  status : String
  cpp : Metric
deriving DecidableEq

/-- Per-ad-set step of `process_adsets` (src/workers/update_status.py lines
233-319): compute the decision; on "no decision" or on a target equal to the
current status do nothing; otherwise invoke the apply layer and record the
new status only when the apply reports success.  Returns the (possibly
updated) ad set entry together with whether the apply layer was invoked. -/
def processAdset (mode : Mode) (t : ℚ) (apply : String → String → Bool)
    (a : AdsetInfo) : AdsetInfo × Bool :=
  match adsetDecision mode a.cpp t a.status with
  | none => (a, false)
  | some target =>
    if a.status = target then (a, false)
    else if apply a.id target then ({ a with status := target }, true) else (a, true)

/-- The ad-set loop of `process_adsets`: every ad set of the batch is
processed independently in order. -/
def process_adsets (mode : Mode) (t : ℚ) (apply : String → String → Bool)
    (adsets : List AdsetInfo) : List (AdsetInfo × Bool) :=
  adsets.map (processAdset mode t apply)

/-- Outcome of one attempt of the apply layer against the platform:
whether the `update_facebook_status` POST succeeded at the transport level,
and the status read back by `fetch_entity_status` afterwards (`none` when
the read itself failed). -/
structure AttemptResult where
  writeOk : Bool
  readBack : Option String
deriving DecidableEq

/-- An attempt is verified when the write succeeded and the read-back status
equals the target status. -/
def verifiedB (r : AttemptResult) (target : String) : Bool :=
  r.writeOk && (r.readBack == some target)

/-- Observable outcome of `update_facebook_status_with_retry`: the returned
boolean, the number of attempts executed, the backoff waits performed
(in seconds), and the number of status-mismatch warnings emitted. -/
structure RetryOutcome where
  success : Bool
  attempts : Nat
  waits : List Nat
  warnings : Nat
deriving DecidableEq

/-- The retry loop body of `update_facebook_status_with_retry`
(src/workers/update_status.py lines 59-101), iterating over the remaining
attempt indices: return success on the first verified attempt; otherwise
emit a mismatch warning when the write succeeded but the read-back differed,
wait `2 ^ attempt` seconds when another attempt remains, and continue. -/
def retryGo (env : Nat → AttemptResult) (target : String) (maxRetries : Nat) :
    List Nat → RetryOutcome
  | [] => ⟨false, 0, [], 0⟩
  | i :: rest =>
    let r := env i
    if verifiedB r target then ⟨true, 1, [], 0⟩
    else
      let warn := if r.writeOk && !(r.readBack == some target) then 1 else 0
      let w := if i < maxRetries then [2 ^ i] else []
      let o := retryGo env target maxRetries rest
      ⟨o.success, o.attempts + 1, w ++ o.waits, warn + o.warnings⟩

/-- Embedding of `update_facebook_status_with_retry`: run the loop for attempt indices
`0 .. maxRetries` (the `for attempt in range(max_retries + 1)` loop). -/
def update_facebook_status_with_retry (env : Nat → AttemptResult) (target : String)
    (maxRetries : Nat) : RetryOutcome :=
  retryGo env target maxRetries (List.range (maxRetries + 1))

/-- The apply layer as used by `process_adsets`: the boolean returned by
`update_facebook_status_with_retry` with the default budget of 2 retries,
where `envFor` gives the platform's behaviour for each entity id. -/
def applyViaRetry (envFor : String → Nat → AttemptResult) (id target : String) : Bool :=
  (update_facebook_status_with_retry (envFor id) target 2).success

/-- Witness fixture: a platform that accepts every write but whose status
read-back is always `ACTIVE` (a write that never sticks). -/
def envStuck : Nat → AttemptResult := fun _ => ⟨true, some "ACTIVE"⟩

/-- Witness fixture: the stuck platform for every entity id. -/
def envForStuck : String → Nat → AttemptResult := fun _ => envStuck

/-- Witness fixture: an active ad set with a defined CPP of 10. -/
def adsetStuckW : AdsetInfo := ⟨"a1", "AdSet 1", "ACTIVE", some 10⟩

/-- Embedding of `normalize_campaign_code` of src/workers/update_status.py lines 118-122:
lower-case and remove all non-alphanumeric characters. -/
def normalize_campaign_code (code : List Char) : List Char :=
  (pyLower code).filter Char.isAlphanum

/-- Embedding of `is_campaign_code_match` of src/workers/update_status.py lines 124-128:
substring containment of the normalized code in the normalized name. -/
def is_campaign_code_match (campaign_name campaign_code : List Char) : Bool :=
  substrIn (normalize_campaign_code campaign_code) (normalize_campaign_code campaign_name)

end UpdateStatusWorker

namespace OnOffAdsetsWorker

/-- Embedding of `normalize_campaign_code` of src/workers/on_off_adsets_worker.py lines
207-213: first strip leading/trailing spaces and hyphens, then lower-case
and remove all non-alphanumeric characters. -/
def normalize_campaign_code (code : List Char) : List Char :=
  (pyLower (stripChars [' ', '-'] code)).filter Char.isAlphanum

/-- Embedding of `is_campaign_code_match` of src/workers/on_off_adsets_worker.py lines
216-220: substring containment of the normalized code in the normalized
name. -/
def is_campaign_code_match (campaign_name campaign_code : List Char) : Bool :=
  substrIn (normalize_campaign_code campaign_code) (normalize_campaign_code campaign_name)

/-- One entry of the `actions` list of an insights item. -/
structure FBAction where
  action_type : String
  value : ℚ
deriving DecidableEq

/-- One item of the insights response: `spend` and the `actions` list
(the fields `get_cpp_from_insights` reads for the metric). -/
structure InsightItem where
  spend : ℚ
  actions : List FBAction
deriving DecidableEq

/-- The fixed set of checkout-equivalent action types recognized by
`get_cpp_from_insights` (src/workers/on_off_adsets_worker.py lines 128-135). -/
def checkout_actions : List String :=
  ["omni_initiated_checkout",
   "initiate_checkout",
   "offsite_conversion.fb_pixel_initiate_checkout",
   "checkout_initiated",
   "onsite_conversion.initiate_checkout",
   "onsite_web_initiate_checkout"]

/-- The `checkout_values` list collected for one insights item: the values
of those actions whose type is a recognized checkout action, in order. -/
def checkoutValues (item : InsightItem) : List ℚ :=
  (item.actions.filter (fun a => checkout_actions.contains a.action_type)).map
    (fun a => a.value)

/-- Embedding of `initiate_checkout_value = max(checkout_values) if checkout_values else 0`
(src/workers/on_off_adsets_worker.py line 148). -/
def initiate_checkout_value (item : InsightItem) : ℚ :=
  match checkoutValues item with
  | [] => 0
  | v :: rest => rest.foldl max v

/-- The CPP computed for one insights item
(src/workers/on_off_adsets_worker.py lines 150-153): `spend / count` when
the count is positive, and the undefined sentinel (`float('inf')`)
otherwise. -/
def cppOf (item : InsightItem) : Metric :=
  if 0 < initiate_checkout_value item then
    some (item.spend / initiate_checkout_value item)
  else none

/-- How a `fetch_adsets` run that holds the lock terminates: normal
completion, account verification failure, campaign-fetch failure, zero
matching campaigns, or an exception caught by the handler. -/
inductive RunOutcome where
  | ok : RunOutcome
  | verifyError : RunOutcome
  | campaignFetchError : RunOutcome
  | zeroMatches : RunOutcome
  | exn : RunOutcome
deriving DecidableEq

/-- Environment of one `fetch_adsets` run: which terminal outcome the body
reaches and how many platform API calls each stage makes. -/
structure FetchEnv where
  outcome : RunOutcome
  insightsCalls : Nat
  campaignPageCalls : Nat
  callsBeforeExn : Nat
deriving DecidableEq

/-- The per-account shared state touched by `fetch_adsets`: the Redis lock
`lock:fetch_campaign:{account}` and the `pending_schedules:{account}`
queue. -/
structure LockState where
  lockHeld : Bool
  pending : List String
deriving DecidableEq

/-- Observable result of one `fetch_adsets` invocation: the returned
message, whether the run was deferred on lock contention, how many platform
API calls it made, and whether `process_adsets` was dispatched. -/
structure FetchResult where
  message : String
  deferred : Bool
  apiCalls : Nat
  dispatched : Bool
deriving DecidableEq

/-- Embedding of `fetch_adsets` (src/workers/on_off_adsets_worker.py lines 224-406):
validate the account id before touching the lock; on lock contention append
the schedule to the pending queue and return a deferred result with no
platform API call; otherwise run the body (account verification, insights
fetch, campaign fetch, filtering, dispatch) inside try/except, and release
the lock in the `finally` block on every exit path. -/
def fetch_adsets (ad_account_id : String) (schedule : String) (env : FetchEnv)
    (st : LockState) : FetchResult × LockState :=
  if ad_account_id = "" then
    (⟨"Invalid ad_account_id format", false, 0, false⟩, st)
  else if st.lockHeld then
    (⟨"Fetch already in progress, queued process_scheduled_campaigns", true, 0, false⟩,
     ⟨st.lockHeld, st.pending ++ [schedule]⟩)
  else
    let body : FetchResult :=
      match env.outcome with
      | RunOutcome.verifyError => ⟨"Error accessing ad account", false, 1, false⟩
      | RunOutcome.campaignFetchError =>
          ⟨"Error fetching campaign data", false,
           1 + env.insightsCalls + env.campaignPageCalls, false⟩
      | RunOutcome.zeroMatches =>
          ⟨"No matching campaigns found", false,
           1 + env.insightsCalls + env.campaignPageCalls, false⟩
      | RunOutcome.exn => ⟨"Error", false, env.callsBeforeExn, false⟩
      | RunOutcome.ok =>
          ⟨"Fetched campaign data", false,
           1 + env.insightsCalls + env.campaignPageCalls, true⟩
    (body, ⟨false, st.pending⟩)

/-- Witness fixture: an insights item with two overlapping checkout
measurement channels (values 3 and 5) and one unrelated action. -/
def itemW : InsightItem :=
  ⟨10, [⟨"omni_initiated_checkout", 3⟩, ⟨"initiate_checkout", 5⟩, ⟨"link_click", 99⟩]⟩

/-- Witness fixture: a run environment that completes normally. -/
def envOkW : FetchEnv := ⟨RunOutcome.ok, 4, 2, 0⟩

end OnOffAdsetsWorker

namespace EditBudgetWorker

/-- The match record returned by `parse_campaign_name_flexible`. -/
structure MatchRec where
  page_name_found : Bool
  item_name_found : Bool
  campaign_code_found : Bool
deriving DecidableEq

/-- Whitespace collapsing of `normalize_name`
(src/workers/edit_budget_worker.py lines 25-31): every run of whitespace
becomes a single space. -/
def collapseWs : List Char → List Char
  | [] => []
  | [c] => [if c.isWhitespace then ' ' else c]
  | c :: d :: rest =>
    if c.isWhitespace && d.isWhitespace then collapseWs (d :: rest)
    else (if c.isWhitespace then ' ' else c) :: collapseWs (d :: rest)

/-- Embedding of `normalize_name`: lowercase, trim, collapse internal whitespace.
Defined in the source but not used by the flexible matcher. -/
def normalize_name (name : List Char) : List Char :=
  collapseWs (pyStrip (pyLower name))

/-- Embedding of `parse_campaign_name_flexible` (src/workers/edit_budget_worker.py lines
33-45): empty names match nothing; otherwise each expected component (when
non-empty) is lowercased and tested for membership among the dash-delimited
segments of the name, each segment stripped and lowercased. -/
def parse_campaign_name_flexible
    (campaign_name expected_page_name expected_item_name expected_campaign_code : List Char) :
    MatchRec :=
  if campaign_name = [] then ⟨false, false, false⟩
  else
    let parts := (pySplitDash campaign_name).map (fun p => pyLower (pyStrip p))
    ⟨if expected_page_name = [] then false
        else parts.contains (pyLower expected_page_name),
     if expected_item_name = [] then false
        else parts.contains (pyLower expected_item_name),
     if expected_campaign_code = [] then false
        else parts.contains (pyLower expected_campaign_code)⟩

/-- Modelled from the spec: the Name Resolver contract of spec section 4.1,
which says both sides are normalized by lowercasing, trimming and collapsing
internal whitespace to single spaces before each expected component is
tested for membership among the dash-delimited segments of the name.  Used
only to compare the spec's wording against
`parse_campaign_name_flexible`. -/
def specMatchComponents
    (campaign_name expected_page_name expected_item_name expected_campaign_code : List Char) :
    MatchRec :=
  let norm := fun (s : List Char) => collapseWs (pyStrip (pyLower s))
  let parts := (pySplitDash campaign_name).map norm
  ⟨parts.contains (norm expected_page_name),
   parts.contains (norm expected_item_name),
   parts.contains (norm expected_campaign_code)⟩

end EditBudgetWorker

end AdsAutomation

open AdsAutomation AdsAutomation.UpdateStatusWorker AdsAutomation.OnOffAdsetsWorker
open AdsAutomation.EditBudgetWorker

theorem retryGo_attempts_le (env : Nat → AttemptResult) (target : String) (m : Nat)
    (L : List Nat) : (retryGo env target m L).attempts ≤ L.length := by
  induction L with
  | nil => simp [retryGo]
  | cons i rest ih =>
    by_cases h : verifiedB (env i) target
    · simp [retryGo, h]
    · simp [retryGo, h]
      omega

theorem retryGo_success_iff (env : Nat → AttemptResult) (target : String) (m : Nat)
    (L : List Nat) :
    (retryGo env target m L).success = true ↔ ∃ i ∈ L, verifiedB (env i) target = true := by
  induction L with
  | nil => simp [retryGo]
  | cons i rest ih =>
    by_cases h : verifiedB (env i) target
    · simp [retryGo, h]
    · simp [retryGo, h, ih]

theorem retryGo_warnings_eq (env : Nat → AttemptResult) (target : String) (m : Nat)
    (L : List Nat) :
    (retryGo env target m L).warnings
      = ((L.take (retryGo env target m L).attempts).filter
          (fun i => (env i).writeOk && !((env i).readBack == some target))).length := by
  induction L with
  | nil => simp [retryGo]
  | cons i rest ih =>
    by_cases h : verifiedB (env i) target
    · have h' := h
      simp only [verifiedB, Bool.and_eq_true, beq_iff_eq] at h'
      simp [retryGo, h, h'.1, h'.2]
    · by_cases hp : ((env i).writeOk && !((env i).readBack == some target)) = true
      · simp [retryGo, h, hp, ih]
        omega
      · simp [retryGo, h, hp, ih]

theorem retryGo_congr (env env2 : Nat → AttemptResult) (target : String) (m : Nat)
    (L : List Nat)
    (hv : ∀ i ∈ L, verifiedB (env2 i) target = verifiedB (env i) target) :
    (retryGo env2 target m L).success = (retryGo env target m L).success
    ∧ (retryGo env2 target m L).attempts = (retryGo env target m L).attempts
    ∧ (retryGo env2 target m L).waits = (retryGo env target m L).waits := by
  induction L with
  | nil => simp [retryGo]
  | cons i rest ih =>
    have hi : verifiedB (env2 i) target = verifiedB (env i) target :=
      hv i (List.mem_cons_self i rest)
    have ih2 := ih (fun j hj => hv j (List.mem_cons_of_mem i hj))
    by_cases h : verifiedB (env i) target
    · simp [retryGo, h, hi]
    · simp [retryGo, h, hi, ih2.1, ih2.2.1, ih2.2.2]

theorem retryGo_waits_three (env : Nat → AttemptResult) (target : String) :
    (retryGo env target 2 [0, 1, 2]).waits
      = (List.range ((retryGo env target 2 [0, 1, 2]).attempts - 1)).map (fun a => 2 ^ a) := by
  by_cases h0 : verifiedB (env 0) target
  · simp [retryGo, h0]
  · by_cases h1 : verifiedB (env 1) target
    · simp [retryGo, h0, h1, List.range_succ]
    · by_cases h2 : verifiedB (env 2) target
      · simp [retryGo, h0, h1, h2, List.range_succ]
      · simp [retryGo, h0, h1, h2, List.range_succ]

/-- C1: an ad set whose cost metric is the undefined sentinel is targeted
`PAUSED` by the Decision Policy regardless of mode and threshold, and an ad
set that is already `PAUSED` is left unchanged with no apply call. -/
theorem C1_undefined_metric_pauses (mode : Mode) (t : ℚ) (current : String) :
    adsetDecision mode none t current
      = (if current = "PAUSED" then none else some "PAUSED")
    ∧ (∀ (apply : String → String → Bool) (i n : String),
        processAdset mode t apply ⟨i, n, "PAUSED", none⟩ = (⟨i, n, "PAUSED", none⟩, false)) := by
  constructor
  · rfl
  · intro apply i n
    simp [processAdset, adsetDecision]

/-- C2 counterexample: at the Campaigns watch level in `ON` mode with a
defined metric `7` at or above the threshold `5`, the code makes no decision
(the campaign keeps its current status); the Decision Policy's target is not
`PAUSED` as the claim states. -/
theorem C2_counterexample :
    campaignDecision Mode.ON (some 7) 5 = none
    ∧ campaignDecision Mode.ON (some 7) 5 ≠ some "PAUSED" := by
  constructor
  · simp [campaignDecision, mLtB]
    norm_num
  · simp [campaignDecision, mLtB]

/-- C2 amended: for every campaign processed at the Campaigns watch level in
`ON` mode whose cost metric is defined and at or above the threshold, the
Decision Policy makes no decision — the campaign remains in its current
status (campaign-level `ON` mode never pauses). -/
theorem C2_on_mode_ge_threshold_holds (q t : ℚ) (h : t ≤ q) :
    campaignDecision Mode.ON (some q) t = none := by
  simp [campaignDecision, mLtB, not_lt.mpr h]

/-- C2 witness: the amended theorem at metric 7, threshold 5. -/
theorem C2_on_mode_witness : campaignDecision Mode.ON (some 7) 5 = none :=
  C2_on_mode_ge_threshold_holds 7 5 (by norm_num)

/-- C8: an ad set whose metric is defined but zero (zero spend with
qualifying outcomes) gets no decision: the current status is held and the
apply layer is not invoked, regardless of mode and threshold. -/
theorem C8_zero_spend_holds (mode : Mode) (t : ℚ)
    (apply : String → String → Bool) (i n st : String) :
    adsetDecision mode (some 0) t st = none
    ∧ processAdset mode t apply ⟨i, n, st, some 0⟩ = (⟨i, n, st, some 0⟩, false) := by
  constructor
  · simp [adsetDecision]
  · simp [processAdset, adsetDecision]

/-- C4: `update_facebook_status_with_retry` with the default budget of 2
retries makes at most 3 attempts, succeeds exactly when some attempt within
the budget has a transport-successful write whose read-back equals the
target, waits `2 ^ attempt` seconds between attempts, emits one mismatch
warning per attempt whose write succeeded but whose read-back differed, and
treats a verification mismatch exactly like a transport failure: the
returned result, attempt count and waits depend only on which attempts
verified. -/
theorem C4_retry_contract (env : Nat → AttemptResult) (target : String) :
    (update_facebook_status_with_retry env target 2).attempts ≤ 3
    ∧ ((update_facebook_status_with_retry env target 2).success = true
        ↔ ∃ i, i < 3 ∧ verifiedB (env i) target = true)
    ∧ (update_facebook_status_with_retry env target 2).waits
        = (List.range ((update_facebook_status_with_retry env target 2).attempts - 1)).map
            (fun a => 2 ^ a)
    ∧ (update_facebook_status_with_retry env target 2).warnings
        = ((List.range (update_facebook_status_with_retry env target 2).attempts).filter
            (fun i => (env i).writeOk && !((env i).readBack == some target))).length
    ∧ ∀ env2 : Nat → AttemptResult,
        (∀ i, verifiedB (env2 i) target = verifiedB (env i) target) →
        (update_facebook_status_with_retry env2 target 2).success
            = (update_facebook_status_with_retry env target 2).success
        ∧ (update_facebook_status_with_retry env2 target 2).attempts
            = (update_facebook_status_with_retry env target 2).attempts
        ∧ (update_facebook_status_with_retry env2 target 2).waits
            = (update_facebook_status_with_retry env target 2).waits := by
  have hdef : update_facebook_status_with_retry env target 2
      = retryGo env target 2 (List.range 3) := rfl
  have hle : (update_facebook_status_with_retry env target 2).attempts ≤ 3 := by
    rw [hdef]
    simpa using retryGo_attempts_le env target 2 (List.range 3)
  have h3 : List.range 3 = [0, 1, 2] := by decide
  refine ⟨hle, ?_, ?_, ?_, ?_⟩
  · rw [hdef, retryGo_success_iff]
    simp [List.mem_range]
  · rw [hdef, h3]
    exact retryGo_waits_three env target
  · have h := retryGo_warnings_eq env target 2 (List.range 3)
    rw [List.take_range] at h
    rw [hdef]
    rw [Nat.min_eq_left (by rw [hdef] at hle; exact hle)] at h
    exact h
  · intro env2 hv
    have hdef2 : update_facebook_status_with_retry env2 target 2
        = retryGo env2 target 2 (List.range 3) := rfl
    rw [hdef, hdef2]
    exact retryGo_congr env env2 target 2 (List.range 3) (fun i _ => hv i)

/-- C4 witness: the contract applied to the stuck-platform fixture, with the
mismatch-like-transport clause discharged at that fixture. -/
theorem C4_retry_contract_witness :
    (update_facebook_status_with_retry envStuck "PAUSED" 2).attempts ≤ 3
    ∧ (update_facebook_status_with_retry envStuck "PAUSED" 2).success
        = (update_facebook_status_with_retry envStuck "PAUSED" 2).success :=
  ⟨(C4_retry_contract envStuck "PAUSED").1,
   ((C4_retry_contract envStuck "PAUSED").2.2.2.2 envStuck (fun _ => rfl)).1⟩

theorem le_foldl_max (l : List ℚ) (a : ℚ) : a ≤ l.foldl max a := by
  induction l generalizing a with
  | nil => simp
  | cons x xs ih =>
    rw [List.foldl_cons]
    exact le_trans (le_max_left a x) (ih (max a x))

theorem mem_le_foldl_max (l : List ℚ) : ∀ (a v : ℚ), v ∈ l → v ≤ l.foldl max a := by
  induction l with
  | nil =>
    intro a v hv
    cases hv
  | cons x xs ih =>
    intro a v hv
    rw [List.foldl_cons]
    rcases List.mem_cons.mp hv with h | h
    · subst h
      exact le_trans (le_max_right a v) (le_foldl_max xs (max a v))
    · exact ih (max a x) v h

theorem foldl_max_mem (l : List ℚ) : ∀ a : ℚ, l.foldl max a = a ∨ l.foldl max a ∈ l := by
  induction l with
  | nil =>
    intro a
    left
    rfl
  | cons x xs ih =>
    intro a
    rw [List.foldl_cons]
    rcases ih (max a x) with h | h
    · rcases max_choice a x with hm | hm
      · left
        rw [h, hm]
      · right
        rw [h, hm]
        exact List.mem_cons_self x xs
    · right
      exact List.mem_cons_of_mem x h

/-- C3: for every insights item, the outcome count is the maximum value
observed across the recognized checkout-equivalent action types (an upper
bound of all of them that is itself one of them), the cost metric is
`spend / count` when the count is positive, and a zero count yields the
undefined sentinel, never zero and never a division error. -/
theorem C3_checkout_metric (item : InsightItem) :
    (∀ v ∈ checkoutValues item, v ≤ initiate_checkout_value item)
    ∧ (checkoutValues item ≠ [] → initiate_checkout_value item ∈ checkoutValues item)
    ∧ (0 < initiate_checkout_value item →
        cppOf item = some (item.spend / initiate_checkout_value item))
    ∧ (initiate_checkout_value item = 0 → cppOf item = none) := by
  refine ⟨?_, ?_, ?_, ?_⟩
  · intro v hv
    cases hcv : checkoutValues item with
    | nil =>
      rw [hcv] at hv
      cases hv
    | cons w rest =>
      rw [hcv] at hv
      have he : initiate_checkout_value item = rest.foldl max w := by
        unfold initiate_checkout_value
        rw [hcv]
      rw [he]
      rcases List.mem_cons.mp hv with h | h
      · subst h
        exact le_foldl_max rest v
      · exact mem_le_foldl_max rest w v h
  · intro hne
    cases hcv : checkoutValues item with
    | nil => exact absurd hcv hne
    | cons w rest =>
      have he : initiate_checkout_value item = rest.foldl max w := by
        unfold initiate_checkout_value
        rw [hcv]
      rw [he]
      rcases foldl_max_mem rest w with h | h
      · rw [h]
        exact List.mem_cons_self w rest
      · exact List.mem_cons_of_mem w h
  · intro hpos
    simp [cppOf, hpos]
  · intro hzero
    simp [cppOf, hzero]

/-- C3 witness: on the fixture item the count 5 is the maximum (not the sum
8) of the two overlapping checkout channels, and the metric is 10/5 = 2. -/
theorem C3_checkout_metric_witness :
    (5 : ℚ) ≤ initiate_checkout_value itemW
    ∧ initiate_checkout_value itemW ∈ checkoutValues itemW
    ∧ cppOf itemW = some 2 := by
  refine ⟨(C3_checkout_metric itemW).1 5 (by decide),
          (C3_checkout_metric itemW).2.1 (by decide), ?_⟩
  have h := (C3_checkout_metric itemW).2.2.1 (by decide)
  have h5 : initiate_checkout_value itemW = 5 := by decide
  rw [h, h5]
  norm_num [itemW]

/-- C5: starting `fetch_adsets` for a valid account whose per-account lock
is already held appends the schedule to the tail of that account's pending
queue and returns immediately with a deferred result, making no platform
API call, raising no error path, and dispatching no processing task. -/
theorem C5_lock_contention_defers (id sched : String) (env : FetchEnv) (st : LockState)
    (hid : id ≠ "") (h : st.lockHeld = true) :
    (OnOffAdsetsWorker.fetch_adsets id sched env st).1.deferred = true
    ∧ (OnOffAdsetsWorker.fetch_adsets id sched env st).2.pending = st.pending ++ [sched]
    ∧ (OnOffAdsetsWorker.fetch_adsets id sched env st).1.apiCalls = 0
    ∧ (OnOffAdsetsWorker.fetch_adsets id sched env st).1.dispatched = false := by
  simp [OnOffAdsetsWorker.fetch_adsets, hid, h]

/-- C5 witness: contention on a held lock with an empty queue defers and
queues the schedule. -/
theorem C5_lock_contention_defers_witness :
    (OnOffAdsetsWorker.fetch_adsets "123" "sched1" envOkW ⟨true, []⟩).1.deferred = true
    ∧ (OnOffAdsetsWorker.fetch_adsets "123" "sched1" envOkW ⟨true, []⟩).2.pending
        = [] ++ ["sched1"] :=
  ⟨(C5_lock_contention_defers "123" "sched1" envOkW ⟨true, []⟩ (by decide) rfl).1,
   (C5_lock_contention_defers "123" "sched1" envOkW ⟨true, []⟩ (by decide) rfl).2.1⟩

/-- C6: whenever `fetch_adsets` acquires the per-account lock (valid account
id, lock not already held), the lock is released before the task returns on
every exit path: normal completion, account verification failure,
campaign-fetch failure, zero matching campaigns, and a raised exception. -/
theorem C6_lock_released_on_all_paths (id sched : String) (env : FetchEnv) (st : LockState)
    (hid : id ≠ "") (h : st.lockHeld = false) :
    (OnOffAdsetsWorker.fetch_adsets id sched env st).2.lockHeld = false := by
  simp [OnOffAdsetsWorker.fetch_adsets, hid, h]

/-- C6 witness: the lock is released even when the run raises an
exception. -/
theorem C6_lock_released_witness :
    (OnOffAdsetsWorker.fetch_adsets "123" "sched1" ⟨RunOutcome.exn, 0, 0, 0⟩
        ⟨false, []⟩).2.lockHeld = false :=
  C6_lock_released_on_all_paths "123" "sched1" ⟨RunOutcome.exn, 0, 0, 0⟩ ⟨false, []⟩
    (by decide) rfl

/-- C9: when the platform accepts writes for an ad set but its status never
changes, every apply attempt with a different target fails verification, the
apply layer reports failure, the ad set's recorded snapshot (including its
STATUS field) is left unchanged, and the batch keeps processing all
remaining ad sets unchanged. -/
theorem C9_apply_failure_isolated (mode : Mode) (t : ℚ)
    (envFor : String → Nat → AttemptResult) (a : AdsetInfo) (xs ys : List AdsetInfo)
    (h : ∀ i, (envFor a.id i).readBack = some a.status) :
    (∀ target, target ≠ a.status →
      (update_facebook_status_with_retry (envFor a.id) target 2).success = false)
    ∧ (processAdset mode t (applyViaRetry envFor) a).1 = a
    ∧ process_adsets mode t (applyViaRetry envFor) (xs ++ a :: ys)
        = process_adsets mode t (applyViaRetry envFor) xs
          ++ processAdset mode t (applyViaRetry envFor) a
            :: process_adsets mode t (applyViaRetry envFor) ys := by
  have hfail : ∀ target, target ≠ a.status →
      (update_facebook_status_with_retry (envFor a.id) target 2).success = false := by
    intro target ht
    have hiff := retryGo_success_iff (envFor a.id) target 2 (List.range 3)
    rw [show update_facebook_status_with_retry (envFor a.id) target 2
        = retryGo (envFor a.id) target 2 (List.range 3) from rfl]
    rcases Bool.eq_false_or_eq_true
        ((retryGo (envFor a.id) target 2 (List.range 3)).success) with hT | hF
    · exfalso
      rcases hiff.mp hT with ⟨i, _, hv⟩
      rw [verifiedB, h i] at hv
      simp only [Bool.and_eq_true, beq_iff_eq, Option.some.injEq] at hv
      exact ht hv.2.symm
    · exact hF
  refine ⟨hfail, ?_, ?_⟩
  · rcases hd : adsetDecision mode a.cpp t a.status with _ | target
    · unfold processAdset
      rw [hd]
    · by_cases hst : a.status = target
      · unfold processAdset
        rw [hd]
        simp [hst]
      · have happ : applyViaRetry envFor a.id target = false :=
          hfail target (fun he => hst he.symm)
        unfold processAdset
        rw [hd]
        simp [hst, happ]
  · unfold process_adsets
    rw [List.map_append, List.map_cons]

/-- C9 witness: the stuck-platform fixture leaves the ad set's snapshot
unchanged and the retry layer reports failure for the `PAUSED` target. -/
theorem C9_apply_failure_isolated_witness :
    (processAdset Mode.OFF 5 (applyViaRetry envForStuck) adsetStuckW).1 = adsetStuckW
    ∧ (update_facebook_status_with_retry (envForStuck "a1") "PAUSED" 2).success = false :=
  ⟨(C9_apply_failure_isolated Mode.OFF 5 envForStuck adsetStuckW [] []
      (fun _ => rfl)).2.1,
   (C9_apply_failure_isolated Mode.OFF 5 envForStuck adsetStuckW [] []
      (fun _ => rfl)).1 "PAUSED" (by decide)⟩

theorem mem_of_mem_dropWhile {α : Type} (p : α → Bool) :
    ∀ (l : List α) (c : α), c ∈ l.dropWhile p → c ∈ l := by
  intro l
  induction l with
  | nil =>
    intro c hc
    simp [List.dropWhile] at hc
  | cons x xs ih =>
    intro c hc
    rw [List.dropWhile_cons] at hc
    by_cases hp : p x
    · rw [if_pos hp] at hc
      exact List.mem_cons_of_mem x (ih c hc)
    · rw [if_neg hp] at hc
      exact hc

theorem mem_of_mem_stripChars (cs : List Char) (s : List Char) (c : Char)
    (hc : c ∈ stripChars cs s) : c ∈ s := by
  unfold stripChars at hc
  rw [List.mem_reverse] at hc
  have hc2 := mem_of_mem_dropWhile _ _ c hc
  rw [List.mem_reverse] at hc2
  exact mem_of_mem_dropWhile _ _ c hc2

theorem substrIn_nil (hay : List Char) : substrIn [] hay = true := by
  induction hay with
  | nil => rfl
  | cons c rest ih => simp [substrIn, List.isPrefixOf, ih]

/-- C10: whenever the campaign code contains no alphanumeric character
(in particular when it is empty), both versions of
`is_campaign_code_match` normalize it to the empty string, which is a
substring of every normalized name, so the filter matches every campaign. -/
theorem C10_blank_code_matches_everything (name code : List Char)
    (h : ∀ c ∈ code, (Char.toLower c).isAlphanum = false) :
    AdsAutomation.OnOffAdsetsWorker.is_campaign_code_match name code = true
    ∧ AdsAutomation.UpdateStatusWorker.is_campaign_code_match name code = true := by
  have hus : AdsAutomation.UpdateStatusWorker.normalize_campaign_code code = [] := by
    unfold AdsAutomation.UpdateStatusWorker.normalize_campaign_code pyLower
    rw [List.filter_eq_nil_iff]
    intro a ha
    rcases List.mem_map.mp ha with ⟨c, hc, rfl⟩
    simp [h c hc]
  have hoo : AdsAutomation.OnOffAdsetsWorker.normalize_campaign_code code = [] := by
    unfold AdsAutomation.OnOffAdsetsWorker.normalize_campaign_code pyLower
    rw [List.filter_eq_nil_iff]
    intro a ha
    rcases List.mem_map.mp ha with ⟨c, hc, rfl⟩
    simp [h c (mem_of_mem_stripChars _ _ c hc)]
  constructor
  · unfold AdsAutomation.OnOffAdsetsWorker.is_campaign_code_match
    rw [hoo]
    exact substrIn_nil _
  · unfold AdsAutomation.UpdateStatusWorker.is_campaign_code_match
    rw [hus]
    exact substrIn_nil _

/-- C10 witness: the code `"- -"` (no alphanumeric characters) matches an
arbitrary campaign name in both workers. -/
theorem C10_blank_code_witness :
    AdsAutomation.OnOffAdsetsWorker.is_campaign_code_match
        "Summer Sale-PageA-P200".toList "- -".toList = true
    ∧ AdsAutomation.UpdateStatusWorker.is_campaign_code_match
        "Summer Sale-PageA-P200".toList "- -".toList = true :=
  C10_blank_code_matches_everything "Summer Sale-PageA-P200".toList "- -".toList (by decide)

/-- C7 counterexample: the matcher does not collapse internal whitespace as
the claim states.  On the name `"page  a-itemb-p100"` (two spaces) with
expected components `("page a", "itemb", "p100")`,
`parse_campaign_name_flexible` reports the page component as not found,
whereas the claimed normalization (lowercase, trim, collapse internal
whitespace to single spaces) would find all three. -/
theorem C7_counterexample :
    parse_campaign_name_flexible "page  a-itemb-p100".toList
        "page a".toList "itemb".toList "p100".toList = ⟨false, true, true⟩
    ∧ specMatchComponents "page  a-itemb-p100".toList
        "page a".toList "itemb".toList "p100".toList = ⟨true, true, true⟩ := by
  decide

/-- C7 amended: the Name Resolver lowercases and trims both the expected
components and each dash-delimited segment of the name (internal whitespace
is preserved, not collapsed; dashes and punctuation are significant) and
tests membership independent of position; in particular
`"PageA-ItemB-P100"` against `("pagea", "itemb", "p100")` finds all three
regardless of casing and of leading/trailing whitespace, in any segment
order, and against `("pagea", "itemc", "p100")` reports the item as not
found with the other two found. -/
theorem C7_flexible_match_amended :
    parse_campaign_name_flexible "PageA-ItemB-P100".toList
        "pagea".toList "itemb".toList "p100".toList = ⟨true, true, true⟩
    ∧ parse_campaign_name_flexible "PageA-ItemB-P100".toList
        "pagea".toList "itemc".toList "p100".toList = ⟨true, false, true⟩
    ∧ parse_campaign_name_flexible "  pAgeA - ITEMB -p100 ".toList
        "pagea".toList "itemb".toList "p100".toList = ⟨true, true, true⟩
    ∧ parse_campaign_name_flexible "P100-ItemB-PageA".toList
        "pagea".toList "itemb".toList "p100".toList = ⟨true, true, true⟩ := by
  decide
